import Mathlib

/-!
Shallow embedding of the relay server in `src/s.js` (a WebSocket
state-synchronization relay): connection registry, significant-change
filtering, batched broadcasting, bounded chat history, and liveness
sweeping, together with theorems about the behaviour of each operation.

Modelling conventions:
- JavaScript numbers are modelled as rationals (`ℚ`); timestamps as `ℚ`.
- WebSockets are identified by natural numbers; whether a socket's
  `readyState` is `OPEN` is supplied externally as a predicate
  `isOpen : ℕ → Bool`, since it is controlled by the transport layer.
- The `clients` map, and the `pendingUpdates` map, are JavaScript `Map`s,
  which iterate in insertion order; they are modelled as association
  lists whose order is the insertion order.
- `ws.send` is modelled as emitting an output `(destination, message)`;
  send failures (the catch branches) are not modelled, since every claim
  under study concerns the failure-free path.
-/

/-- Constant MAX_CHAT_HISTORY from the source. -/
def MAX_CHAT_HISTORY : ℕ := 25

/-- Constant POSITION_THRESHOLD from the source (0.001). -/
def POSITION_THRESHOLD : ℚ := 1 / 1000

/-- Constant ROTATION_THRESHOLD from the source (0.001). -/
def ROTATION_THRESHOLD : ℚ := 1 / 1000

/-- A 3-component vector, as the `{x, y, z}` objects in the source. -/
structure Vec3 where
  x : ℚ
  y : ℚ
  z : ℚ
deriving DecidableEq, Repr

/-- A player state object. Wire states carry `position`, `rotationY`,
`isMoving`, `isGrounded`, `velocity`, `velocityY` and `timestamp`; the
server stamps `serverTimestamp` and `clientTimestamp` before storing and
rebroadcasting, so those two are `Option` (`none` models the field being
absent, as on the wire and in the initial state). -/
structure PlayerState where
  position : Vec3
  rotationY : ℚ
  isMoving : Bool
  isGrounded : Bool
  velocity : Vec3
  velocityY : ℚ
  timestamp : ℚ
  serverTimestamp : Option ℚ
  clientTimestamp : Option ℚ
deriving DecidableEq, Repr

/-- One entry of the chat history. -/
structure ChatEntry where
  senderId : String
  message : String
  timestamp : ℚ
deriving DecidableEq, Repr

/-- The per-connection record stored as a value of the `clients` map. -/
structure Client where
  id : String
  state : PlayerState
  lastUpdate : ℚ
  lastHeartbeat : ℚ
deriving DecidableEq, Repr

/-- Outbound server-to-client messages (the JSON payloads the server
sends). `ping` is the WebSocket control frame sent by the liveness
sweep. -/
inductive OutMsg where
  | assign_id (id : String) (initialState : PlayerState) (serverTime : ℚ)
  | existing_players (playersData : List (String × PlayerState))
  | chat_history (history : List ChatEntry)
  | player_joined (id : String) (state : PlayerState)
  | player_left (id : String)
  | player_update (id : String) (state : PlayerState)
  | batch_update (updates : List OutMsg)
  | chat_message (senderId : String) (message : String) (timestamp : ℚ)
  | emote_start (playerId : String) (emote : String) (timestamp : ℚ)
  | pong (clientTimestamp : ℚ) (serverTimestamp : ℚ)
  | ping
deriving Repr

/-- Inbound client-to-server messages after JSON parsing. `other` is a
well-formed message whose `type` is none of the recognized ones. -/
inductive InMsg where
  | player_update (state : PlayerState)
  | chat_message (message : String)
  | emote_command (emote : String)
  | ping (timestamp : ℚ)
  | other
deriving Repr

/-- A send: destination socket paired with the message delivered to it. -/
abbrev Send := ℕ × OutMsg

/-- The whole mutable server state: the `clients` map (insertion-ordered
association list from socket to client record), the chat history array,
the `pendingUpdates` map, the `updateBatchTimer` flag (non-null-ness of
the timer handle), the number of currently scheduled flush timeouts
(for stating the scheduling-singleton invariant), and `wss.clients`
with each socket's `isAlive` flag. -/
structure ServerState where
  clients : List (ℕ × Client)
  chatHistory : List ChatEntry
  pendingUpdates : List (ℕ × List OutMsg)
  updateBatchTimer : Bool
  scheduledFlushes : ℕ
  socks : List (ℕ × Bool)
deriving Repr

/-- The server state at process start. -/
def initialServer : ServerState :=
  { clients := [], chatHistory := [], pendingUpdates := [],
    updateBatchTimer := false, scheduledFlushes := 0, socks := [] }

/-- JS `Map.get` on an insertion-ordered association list. -/
def alGet {β : Type} : List (ℕ × β) → ℕ → Option β
  | [], _ => none
  | p :: ps, k => if p.1 = k then some p.2 else alGet ps k

/-- JS `Map.set` on an association list: replace in place when the key is
present (keeping its position), else append at the end. -/
def alSet {β : Type} : List (ℕ × β) → ℕ → β → List (ℕ × β)
  | [], k, v => [(k, v)]
  | p :: ps, k, v => if p.1 = k then (k, v) :: ps else p :: alSet ps k v

/-- JS `Map.delete` on an association list: drop every pair carrying the
key (a JS `Map` holds each key at most once, so this coincides with
deleting the key's single entry). -/
def alDel {β : Type} : List (ℕ × β) → ℕ → List (ℕ × β)
  | [], _ => []
  | p :: ps, k => if p.1 = k then alDel ps k else p :: alDel ps k

/-- Function `hasSignificantChange(oldState, newState)` from the source:
true when `oldState` is absent, or a positional axis differs by more
than POSITION_THRESHOLD, or rotation differs by more than
ROTATION_THRESHOLD, or a discrete flag differs. -/
def hasSignificantChange (oldState : Option PlayerState) (newState : PlayerState) : Bool :=
  match oldState with
  | none => true
  | some o =>
    let posChanged := POSITION_THRESHOLD < |o.position.x - newState.position.x| ||
                      POSITION_THRESHOLD < |o.position.y - newState.position.y| ||
                      POSITION_THRESHOLD < |o.position.z - newState.position.z|
    let rotChanged := ROTATION_THRESHOLD < |o.rotationY - newState.rotationY|
    let stateChanged := o.isMoving ≠ newState.isMoving ||
                        o.isGrounded ≠ newState.isGrounded
    posChanged || rotChanged || stateChanged

/-- The chat-history update of the `chat_message` branch: push the entry,
then shift the front off when the length exceeds MAX_CHAT_HISTORY. -/
def appendChat (history : List ChatEntry) (entry : ChatEntry) : List ChatEntry :=
  let pushed := history ++ [entry]
  if MAX_CHAT_HISTORY < pushed.length then pushed.tail else pushed

/-- Function `broadcastImmediate(message, excludeWs)`: send to every
registered client whose socket is not the excluded one and is open. -/
def broadcastImmediate (isOpen : ℕ → Bool) (st : ServerState)
    (message : OutMsg) (excludeWs : Option ℕ) : List Send :=
  (st.clients.filter (fun p => excludeWs ≠ some p.1 && isOpen p.1)).map
    (fun p => (p.1, message))

/-- Function `batchBroadcast(message, excludeWs, priority)`: priority
messages broadcast immediately; otherwise the message is appended to the
pending queue of every eligible recipient and a flush is scheduled when
none is pending. -/
def batchBroadcast (isOpen : ℕ → Bool) (st : ServerState)
    (message : OutMsg) (excludeWs : Option ℕ) (priority : Bool) :
    ServerState × List Send :=
  if priority then
    (st, broadcastImmediate isOpen st message excludeWs)
  else
    let pending := st.clients.foldl
      (fun acc p =>
        if excludeWs ≠ some p.1 && isOpen p.1 then
          match alGet acc p.1 with
          | none => acc ++ [(p.1, [message])]
          | some q => alSet acc p.1 (q ++ [message])
        else acc)
      st.pendingUpdates
    if st.updateBatchTimer then
      ({ st with pendingUpdates := pending }, [])
    else
      ({ st with pendingUpdates := pending, updateBatchTimer := true,
                 scheduledFlushes := st.scheduledFlushes + 1 }, [])

/-- The body of the `pendingUpdates.forEach` loop in
`flushBatchedUpdates()`: for an open recipient send the single queued
message verbatim, or one `batch_update` envelope when there are two or
more; closed recipients and empty queues produce nothing. -/
def flushStep (isOpen : ℕ → Bool) (acc : List Send) (p : ℕ × List OutMsg) :
    List Send :=
  if isOpen p.1 then
    match p.2 with
    | [] => acc
    | [m] => acc ++ [(p.1, m)]
    | ms => acc ++ [(p.1, OutMsg.batch_update ms)]
  else acc

/-- Function `flushBatchedUpdates()` proper: run `flushStep` over every
pending queue in insertion order, then clear the map and the timer. -/
def flushBatchedUpdates (isOpen : ℕ → Bool) (st : ServerState) :
    ServerState × List Send :=
  ({ st with pendingUpdates := [], updateBatchTimer := false,
             scheduledFlushes := st.scheduledFlushes - 1 },
   st.pendingUpdates.foldl (flushStep isOpen) [])

/-- Function `handleClientDisconnect(ws)`: a no-op when the socket is not
registered; otherwise remove it from the registry and the pending map,
then broadcast `player_left` immediately. -/
def handleClientDisconnect (isOpen : ℕ → Bool) (st : ServerState) (ws : ℕ) :
    ServerState × List Send :=
  match alGet st.clients ws with
  | none => (st, [])
  | some clientData =>
    let st' := { st with clients := alDel st.clients ws,
                         pendingUpdates := alDel st.pendingUpdates ws }
    (st', broadcastImmediate isOpen st' (OutMsg.player_left clientData.id) none)

/-- The default initial state constructed in the connection handler. -/
def initialState (now : ℚ) : PlayerState :=
  { position := ⟨0, 0, 0⟩, rotationY := 0, isMoving := false,
    isGrounded := true, velocityY := 0, velocity := ⟨0, 0, 0⟩,
    timestamp := now, serverTimestamp := none, clientTimestamp := none }

/-- The connection handler `wss.on('connection')`: register the client,
send `assign_id`, then `existing_players` when there are other clients,
then `chat_history` when the buffer is non-empty, then broadcast
`player_joined` immediately to everyone but the new socket. The socket
joins `wss.clients` with `isAlive = true`. -/
def handleConnection (isOpen : ℕ → Bool) (st : ServerState)
    (ws : ℕ) (clientId : String) (now : ℚ) : ServerState × List Send :=
  let init := initialState now
  let st1 := { st with
    clients := alSet st.clients ws
      ({ id := clientId, state := init, lastUpdate := now, lastHeartbeat := now }),
    socks := alSet st.socks ws true }
  let assignSend : List Send := [(ws, OutMsg.assign_id clientId init now)]
  let existingPlayersData :=
    (st1.clients.filter (fun p => ¬ p.1 = ws)).map (fun p => (p.2.id, p.2.state))
  let existingSend : List Send :=
    if 0 < existingPlayersData.length then
      [(ws, OutMsg.existing_players existingPlayersData)]
    else []
  let chatSend : List Send :=
    if 0 < st1.chatHistory.length then
      [(ws, OutMsg.chat_history st1.chatHistory)]
    else []
  let joinedSends :=
    broadcastImmediate isOpen st1 (OutMsg.player_joined clientId init) (some ws)
  (st1, assignSend ++ existingSend ++ chatSend ++ joinedSends)

/-- The `ws.on('message')` handler. Returns without any effect when the
sender is not in the registry; otherwise refreshes `lastHeartbeat` and
dispatches on the message type exactly as the source does. The
`message.state.timestamp || now` fallback is modelled as testing the
timestamp against 0 (the falsy number). -/
def handleMessage (isOpen : ℕ → Bool) (st : ServerState)
    (ws : ℕ) (message : InMsg) (now : ℚ) : ServerState × List Send :=
  match alGet st.clients ws with
  | none => (st, [])
  | some senderData0 =>
    let senderData := { senderData0 with lastHeartbeat := now }
    let st := { st with clients := alSet st.clients ws senderData }
    match message with
    | InMsg.player_update s =>
      if hasSignificantChange (some senderData.state) s then
        let stamped := { s with
          serverTimestamp := some now,
          clientTimestamp := some (if s.timestamp = 0 then now else s.timestamp) }
        let updated := { senderData with state := stamped, lastUpdate := now }
        let st := { st with clients := alSet st.clients ws updated }
        batchBroadcast isOpen st
          (OutMsg.player_update senderData.id stamped) (some ws) false
      else
        (st, [])
    | InMsg.chat_message m =>
      let entry : ChatEntry := ⟨senderData.id, m, now⟩
      let st := { st with chatHistory := appendChat st.chatHistory entry }
      (st, broadcastImmediate isOpen st
        (OutMsg.chat_message senderData.id m now) none)
    | InMsg.emote_command e =>
      if e = "wave" ∨ e = "dance" then
        (st, broadcastImmediate isOpen st
          (OutMsg.emote_start senderData.id e now) none)
      else
        (st, [])
    | InMsg.ping t =>
      (st, [(ws, OutMsg.pong t now)])
    | InMsg.other =>
      (st, [])

/-- The `ws.on('pong')` handler (function `heartbeat`): sets the socket's
`isAlive` flag to true. It touches nothing else. -/
def handlePong (st : ServerState) (ws : ℕ) : ServerState :=
  if (alGet st.socks ws).isSome then
    { st with socks := alSet st.socks ws true }
  else
    st

/-- One iteration of the heartbeat sweep over one socket: an unresponsive
socket (isAlive false) is disconnected and terminated (removed from
`wss.clients`); otherwise its flag is cleared and a ping is sent when the
socket is open. -/
def sweepSock (isOpen : ℕ → Bool) (acc : ServerState × List Send) (ws : ℕ) :
    ServerState × List Send :=
  let (st, outs) := acc
  match alGet st.socks ws with
  | none => (st, outs)
  | some alive =>
    if alive = false then
      let (st', o) := handleClientDisconnect isOpen st ws
      ({ st' with socks := alDel st'.socks ws }, outs ++ o)
    else
      ({ st with socks := alSet st.socks ws false },
       outs ++ if isOpen ws then [(ws, OutMsg.ping)] else [])

/-- The periodic heartbeat sweep (`setInterval` body): visit every socket
of `wss.clients` in order. -/
def heartbeatSweep (isOpen : ℕ → Bool) (st : ServerState) :
    ServerState × List Send :=
  (st.socks.map (·.1)).foldl (sweepSock isOpen) (st, [])

/-- External events driving the server, each carrying the snapshot of
which sockets are open at that moment. `flushFire` is the batch timeout
firing, which can only happen while a timeout is scheduled; `close`
covers both the socket close event and termination-induced close. -/
inductive Event where
  | connect (isOpen : ℕ → Bool) (ws : ℕ) (clientId : String) (now : ℚ)
  | message (isOpen : ℕ → Bool) (ws : ℕ) (msg : InMsg) (now : ℚ)
  | flushFire (isOpen : ℕ → Bool)
  | sweep (isOpen : ℕ → Bool)
  | pongRecv (ws : ℕ)
  | close (isOpen : ℕ → Bool) (ws : ℕ)
  | socketError (isOpen : ℕ → Bool) (ws : ℕ)

/-- One step of the event loop. -/
def step (st : ServerState) (e : Event) : ServerState × List Send :=
  match e with
  | Event.connect isOpen ws cid now => handleConnection isOpen st ws cid now
  | Event.message isOpen ws msg now => handleMessage isOpen st ws msg now
  | Event.flushFire isOpen =>
    if st.updateBatchTimer then flushBatchedUpdates isOpen st else (st, [])
  | Event.sweep isOpen => heartbeatSweep isOpen st
  | Event.pongRecv ws => (handlePong st ws, [])
  | Event.close isOpen ws =>
    let (st', o) := handleClientDisconnect isOpen st ws
    ({ st' with socks := alDel st'.socks ws }, o)
  | Event.socketError isOpen ws => handleClientDisconnect isOpen st ws

/-- Run a list of events from a state, collecting all sends in order. -/
def run (st : ServerState) : List Event → ServerState × List Send
  | [] => (st, [])
  | e :: es =>
    let (st', outs) := step st e
    let (st'', outs') := run st' es
    (st'', outs ++ outs')

/-! ### Association-list lemmas -/

theorem alGet_eq_none_iff {β : Type} (l : List (ℕ × β)) (k : ℕ) :
    alGet l k = none ↔ ∀ p ∈ l, p.1 ≠ k := by
  induction l with
  | nil => simp [alGet]
  | cons p ps ih =>
    by_cases h : p.1 = k <;> simp [alGet, h, ih]

theorem alGet_alDel_self {β : Type} (l : List (ℕ × β)) (k : ℕ) :
    alGet (alDel l k) k = none := by
  induction l with
  | nil => simp [alDel, alGet]
  | cons p ps ih =>
    by_cases h : p.1 = k <;> simp [alDel, alGet, h, ih]

theorem alDel_of_get_none {β : Type} {l : List (ℕ × β)} {k : ℕ}
    (h : alGet l k = none) : alDel l k = l := by
  induction l with
  | nil => rfl
  | cons p ps ih =>
    by_cases hp : p.1 = k
    · simp [alGet, hp] at h
    · simp [alGet, hp] at h
      simp [alDel, hp, ih h]

theorem alSet_of_get_none {β : Type} {l : List (ℕ × β)} {k : ℕ} (v : β)
    (h : alGet l k = none) : alSet l k v = l ++ [(k, v)] := by
  induction l with
  | nil => rfl
  | cons p ps ih =>
    by_cases hp : p.1 = k
    · simp [alGet, hp] at h
    · simp [alGet, hp] at h
      simp [alSet, hp, ih h]

theorem alGet_alSet_self {β : Type} (l : List (ℕ × β)) (k : ℕ) (v : β) :
    alGet (alSet l k v) k = some v := by
  induction l with
  | nil => simp [alSet, alGet]
  | cons p ps ih =>
    by_cases h : p.1 = k <;> simp [alSet, alGet, h, ih]

theorem alGet_alSet_ne {β : Type} (l : List (ℕ × β)) {k k' : ℕ} (v : β)
    (h : ¬ k' = k) : alGet (alSet l k v) k' = alGet l k' := by
  induction l with
  | nil => simp [alSet, alGet, Ne.symm h]
  | cons p ps ih =>
    by_cases hp : p.1 = k
    · simp [alSet, alGet, hp, Ne.symm h]
    · by_cases hp' : p.1 = k' <;> simp [alSet, alGet, hp, hp', h, ih]

/-! ### C2: the significance predicate -/

/-- C2: `hasSignificantChange old new` is true exactly when `old` is
absent, or a positional axis differs by more than 0.001, or rotation
differs by more than 0.001, or `isMoving` or `isGrounded` differ; and
when position, rotation and both flags agree, it is false no matter how
velocity, `velocityY` or the timestamps differ (so a first update with no
prior state always counts as significant, and velocity or timestamp
differences alone never do). -/
theorem c2_hasSignificantChange_iff :
    (∀ (oldState : Option PlayerState) (newState : PlayerState),
      hasSignificantChange oldState newState = true ↔
        (oldState = none ∨
          ∃ o, oldState = some o ∧
            (POSITION_THRESHOLD < |o.position.x - newState.position.x| ∨
             POSITION_THRESHOLD < |o.position.y - newState.position.y| ∨
             POSITION_THRESHOLD < |o.position.z - newState.position.z| ∨
             ROTATION_THRESHOLD < |o.rotationY - newState.rotationY| ∨
             o.isMoving ≠ newState.isMoving ∨
             o.isGrounded ≠ newState.isGrounded))) ∧
    (∀ (o newState : PlayerState),
      o.position = newState.position → o.rotationY = newState.rotationY →
      o.isMoving = newState.isMoving → o.isGrounded = newState.isGrounded →
      hasSignificantChange (some o) newState = false) := by
  constructor
  · intro oldState newState
    cases oldState with
    | none => simp [hasSignificantChange]
    | some o =>
      simp [hasSignificantChange, or_assoc]
  · intro o newState hpos hrot hmov hgnd
    simp [hasSignificantChange, hpos, hrot, hmov, hgnd,
          POSITION_THRESHOLD, ROTATION_THRESHOLD]

/-- Witness for C2 at concrete inputs: the absent-old case is
significant, and a velocity-only difference is not. -/
theorem c2_witness :
    hasSignificantChange none (initialState 0) = true ∧
    hasSignificantChange (some (initialState 0))
      ({ initialState 0 with velocity := ⟨7, 0, 0⟩, velocityY := 3,
                             timestamp := 99 }) = false :=
  ⟨(c2_hasSignificantChange_iff.1 none (initialState 0)).2 (Or.inl rfl),
   c2_hasSignificantChange_iff.2 (initialState 0) _ rfl rfl rfl rfl⟩

/-! ### C1: handling of an insignificant player_update -/

/-- General behaviour of the `player_update` branch when the change is
not significant: the handler refreshes the sender's `lastHeartbeat` and
does nothing else — in particular the stored state is left as it was and
no send or enqueue happens. -/
theorem handleMessage_insignificant {isOpen : ℕ → Bool} {st : ServerState}
    {ws : ℕ} {c : Client} {s : PlayerState} {now : ℚ}
    (hc : alGet st.clients ws = some c)
    (hsig : hasSignificantChange (some c.state) s = false) :
    handleMessage isOpen st ws (InMsg.player_update s) now =
      ({ st with clients :=
                   alSet st.clients ws ({ c with lastHeartbeat := now }) },
       []) := by
  unfold handleMessage
  rw [hc]
  simp [hsig]

/-- A concrete client record used by concrete instantiations. -/
def sampleClient : Client :=
  { id := "abc123", state := initialState 0, lastUpdate := 0, lastHeartbeat := 0 }

/-- A concrete one-client server used by concrete instantiations. -/
def sampleServer : ServerState :=
  { clients := [(1, sampleClient)], chatHistory := [], pendingUpdates := [],
    updateBatchTimer := false, scheduledFlushes := 0, socks := [(1, true)] }

/-- A state that differs from the sample client's stored state only in
velocity, velocityY and timestamp — not a significant change. -/
def velocityOnlyState : PlayerState :=
  { initialState 0 with velocity := ⟨7, 0, 0⟩, velocityY := 3, timestamp := 99 }

theorem sample_get : alGet sampleServer.clients 1 = some sampleClient := rfl

theorem sample_insig :
    hasSignificantChange (some sampleClient.state) velocityOnlyState = false := by
  norm_num [hasSignificantChange, sampleClient, initialState, velocityOnlyState,
            POSITION_THRESHOLD, ROTATION_THRESHOLD]

theorem sample_handle_insig :
    handleMessage (fun _ => true) sampleServer 1
        (InMsg.player_update velocityOnlyState) 5 =
      ({ sampleServer with
          clients := [(1, { sampleClient with lastHeartbeat := 5 })] }, []) :=
  handleMessage_insignificant sample_get sample_insig

/-- C1 counterexample: on the concrete one-client server, an update that
changes only velocity produces no sends (first half of the claim) but the
sender's stored state is NOT replaced by the new state — it still equals
the old stored state, which differs from the incoming one — refuting the
second half of the claim. -/
theorem c1_counterexample :
    (handleMessage (fun _ => true) sampleServer 1
        (InMsg.player_update velocityOnlyState) 5).2 = [] ∧
    alGet (handleMessage (fun _ => true) sampleServer 1
        (InMsg.player_update velocityOnlyState) 5).1.clients 1 =
      some ({ sampleClient with lastHeartbeat := 5 }) ∧
    ¬ ({ sampleClient with lastHeartbeat := 5 }).state = velocityOnlyState := by
  refine ⟨by rw [sample_handle_insig], by rw [sample_handle_insig]; rfl, ?_⟩
  intro h
  have hx := congrArg (fun q : PlayerState => q.velocity.x) h
  norm_num [sampleClient, initialState, velocityOnlyState] at hx

/-- C1 amended: for every inbound `player_update` whose new state is not
significant relative to the sender's stored state, no message is sent or
queued to any connection, and the sender's stored state is left
unchanged (it stays the baseline for future comparisons); only the
sender's `lastHeartbeat` is refreshed. -/
theorem c1_insignificant_update (isOpen : ℕ → Bool) (st : ServerState)
    (ws : ℕ) (c : Client) (s : PlayerState) (now : ℚ)
    (hc : alGet st.clients ws = some c)
    (hsig : hasSignificantChange (some c.state) s = false) :
    (handleMessage isOpen st ws (InMsg.player_update s) now).2 = [] ∧
    (handleMessage isOpen st ws (InMsg.player_update s) now).1.pendingUpdates =
      st.pendingUpdates ∧
    alGet (handleMessage isOpen st ws (InMsg.player_update s) now).1.clients ws =
      some ({ c with lastHeartbeat := now }) := by
  rw [handleMessage_insignificant hc hsig]
  exact ⟨rfl, rfl, alGet_alSet_self _ _ _⟩

/-- Witness for C1 (amended) at a concrete input. -/
theorem c1_witness :
    (handleMessage (fun _ => true) sampleServer 1
        (InMsg.player_update velocityOnlyState) 5).2 = [] ∧
    alGet (handleMessage (fun _ => true) sampleServer 1
        (InMsg.player_update velocityOnlyState) 5).1.clients 1 =
      some ({ sampleClient with lastHeartbeat := 5 }) :=
  ⟨(c1_insignificant_update (fun _ => true) sampleServer 1 sampleClient
      velocityOnlyState 5 rfl sample_insig).1,
   (c1_insignificant_update (fun _ => true) sampleServer 1 sampleClient
      velocityOnlyState 5 rfl sample_insig).2.2⟩

/-! ### C10: messages from unregistered sockets -/

/-- C10: for every well-formed inbound message arriving on a socket that
is not in the connection registry, the message handler is a complete
no-op: the server state (registry, chat history, pending queues, timer)
is unchanged and nothing is sent to anyone — in particular a ping gets
no pong reply. -/
theorem c10_unregistered_noop (isOpen : ℕ → Bool) (st : ServerState)
    (ws : ℕ) (message : InMsg) (now : ℚ)
    (h : alGet st.clients ws = none) :
    handleMessage isOpen st ws message now = (st, []) := by
  unfold handleMessage
  rw [h]

/-- Witness for C10: a ping from socket 3, which is not registered on the
sample server, changes nothing and is not answered. -/
theorem c10_witness :
    handleMessage (fun _ => true) sampleServer 3 (InMsg.ping 1) 2 =
      (sampleServer, []) :=
  c10_unregistered_noop (fun _ => true) sampleServer 3 (InMsg.ping 1) 2 rfl

/-! ### C6: idempotent disconnect handling -/

/-- C6: disconnect handling is idempotent. When the socket is not in the
registry it is a no-op. When it is registered: the connection is removed
from the registry, its pending queue is discarded, a `player_left` event
carrying its id goes immediately to every (other) open registered
client, and running disconnect handling again on the resulting state is
a no-op — so any sequence of disconnect triggers (close, error, liveness
timeout) removes and broadcasts exactly once. -/
theorem c6_disconnect_idempotent (isOpen : ℕ → Bool) (st : ServerState)
    (ws : ℕ) :
    (alGet st.clients ws = none →
      handleClientDisconnect isOpen st ws = (st, [])) ∧
    (∀ c, alGet st.clients ws = some c →
      (handleClientDisconnect isOpen st ws).1.clients = alDel st.clients ws ∧
      (handleClientDisconnect isOpen st ws).1.pendingUpdates =
        alDel st.pendingUpdates ws ∧
      (handleClientDisconnect isOpen st ws).2 =
        ((alDel st.clients ws).filter (fun p => isOpen p.1)).map
          (fun p => (p.1, OutMsg.player_left c.id)) ∧
      handleClientDisconnect isOpen (handleClientDisconnect isOpen st ws).1 ws =
        ((handleClientDisconnect isOpen st ws).1, [])) := by
  constructor
  · intro h
    unfold handleClientDisconnect
    rw [h]
  · intro c hc
    have hres : handleClientDisconnect isOpen st ws =
        ({ st with clients := alDel st.clients ws,
                   pendingUpdates := alDel st.pendingUpdates ws },
         broadcastImmediate isOpen
           ({ st with clients := alDel st.clients ws,
                      pendingUpdates := alDel st.pendingUpdates ws })
           (OutMsg.player_left c.id) none) := by
      unfold handleClientDisconnect
      rw [hc]
    refine ⟨by rw [hres], by rw [hres], ?_, ?_⟩
    · rw [hres]
      unfold broadcastImmediate
      simp
    · rw [hres]
      unfold handleClientDisconnect
      rw [show alGet (alDel st.clients ws) ws = none from alGet_alDel_self _ _]

/-- Witness for C6: disconnecting the sample server's only client
removes it, and a second disconnect for the same socket is a no-op. -/
theorem c6_witness :
    (handleClientDisconnect (fun _ => true) sampleServer 1).1.clients =
      alDel sampleServer.clients 1 ∧
    handleClientDisconnect (fun _ => true)
        (handleClientDisconnect (fun _ => true) sampleServer 1).1 1 =
      ((handleClientDisconnect (fun _ => true) sampleServer 1).1, []) :=
  ⟨((c6_disconnect_idempotent (fun _ => true) sampleServer 1).2
      sampleClient sample_get).1,
   ((c6_disconnect_idempotent (fun _ => true) sampleServer 1).2
      sampleClient sample_get).2.2.2⟩

/-! ### Frame lemmas: which fields each operation leaves untouched -/

theorem batchBroadcast_chatHistory (isOpen : ℕ → Bool) (st : ServerState)
    (m : OutMsg) (ex : Option ℕ) (pr : Bool) :
    (batchBroadcast isOpen st m ex pr).1.chatHistory = st.chatHistory := by
  unfold batchBroadcast
  split_ifs <;> rfl

theorem batchBroadcast_clients (isOpen : ℕ → Bool) (st : ServerState)
    (m : OutMsg) (ex : Option ℕ) (pr : Bool) :
    (batchBroadcast isOpen st m ex pr).1.clients = st.clients := by
  unfold batchBroadcast
  split_ifs <;> rfl

theorem batchBroadcast_socks (isOpen : ℕ → Bool) (st : ServerState)
    (m : OutMsg) (ex : Option ℕ) (pr : Bool) :
    (batchBroadcast isOpen st m ex pr).1.socks = st.socks := by
  unfold batchBroadcast
  split_ifs <;> rfl

theorem handleClientDisconnect_chat (isOpen : ℕ → Bool) (st : ServerState)
    (ws : ℕ) :
    (handleClientDisconnect isOpen st ws).1.chatHistory = st.chatHistory := by
  unfold handleClientDisconnect
  cases alGet st.clients ws <;> rfl

theorem handleClientDisconnect_timer (isOpen : ℕ → Bool) (st : ServerState)
    (ws : ℕ) :
    (handleClientDisconnect isOpen st ws).1.updateBatchTimer =
      st.updateBatchTimer := by
  unfold handleClientDisconnect
  cases alGet st.clients ws <;> rfl

theorem handleClientDisconnect_flushes (isOpen : ℕ → Bool) (st : ServerState)
    (ws : ℕ) :
    (handleClientDisconnect isOpen st ws).1.scheduledFlushes =
      st.scheduledFlushes := by
  unfold handleClientDisconnect
  cases alGet st.clients ws <;> rfl

theorem handleClientDisconnect_socks (isOpen : ℕ → Bool) (st : ServerState)
    (ws : ℕ) :
    (handleClientDisconnect isOpen st ws).1.socks = st.socks := by
  unfold handleClientDisconnect
  cases alGet st.clients ws <;> rfl

theorem sweepSock_chat (isOpen : ℕ → Bool) (acc : ServerState × List Send)
    (w : ℕ) : (sweepSock isOpen acc w).1.chatHistory = acc.1.chatHistory := by
  rcases acc with ⟨st, outs⟩
  cases h : alGet st.socks w with
  | none => simp [sweepSock, h]
  | some alive =>
    cases alive
    · simp [sweepSock, h, handleClientDisconnect_chat]
    · simp [sweepSock, h]

theorem sweepSock_timer (isOpen : ℕ → Bool) (acc : ServerState × List Send)
    (w : ℕ) :
    (sweepSock isOpen acc w).1.updateBatchTimer = acc.1.updateBatchTimer := by
  rcases acc with ⟨st, outs⟩
  cases h : alGet st.socks w with
  | none => simp [sweepSock, h]
  | some alive =>
    cases alive
    · simp [sweepSock, h, handleClientDisconnect_timer]
    · simp [sweepSock, h]

theorem sweepSock_flushes (isOpen : ℕ → Bool) (acc : ServerState × List Send)
    (w : ℕ) :
    (sweepSock isOpen acc w).1.scheduledFlushes = acc.1.scheduledFlushes := by
  rcases acc with ⟨st, outs⟩
  cases h : alGet st.socks w with
  | none => simp [sweepSock, h]
  | some alive =>
    cases alive
    · simp [sweepSock, h, handleClientDisconnect_flushes]
    · simp [sweepSock, h]

theorem sweepFold_chat (isOpen : ℕ → Bool) (l : List ℕ) :
    ∀ acc : ServerState × List Send,
      (l.foldl (sweepSock isOpen) acc).1.chatHistory = acc.1.chatHistory := by
  induction l with
  | nil => intro acc; rfl
  | cons w l ih =>
    intro acc
    rw [List.foldl_cons, ih, sweepSock_chat]

theorem sweepFold_timer (isOpen : ℕ → Bool) (l : List ℕ) :
    ∀ acc : ServerState × List Send,
      (l.foldl (sweepSock isOpen) acc).1.updateBatchTimer =
        acc.1.updateBatchTimer := by
  induction l with
  | nil => intro acc; rfl
  | cons w l ih =>
    intro acc
    rw [List.foldl_cons, ih, sweepSock_timer]

theorem sweepFold_flushes (isOpen : ℕ → Bool) (l : List ℕ) :
    ∀ acc : ServerState × List Send,
      (l.foldl (sweepSock isOpen) acc).1.scheduledFlushes =
        acc.1.scheduledFlushes := by
  induction l with
  | nil => intro acc; rfl
  | cons w l ih =>
    intro acc
    rw [List.foldl_cons, ih, sweepSock_flushes]

/-! ### C4: bounded FIFO chat history -/

theorem appendChat_of_lt {h : List ChatEntry} {e : ChatEntry}
    (hlen : h.length < MAX_CHAT_HISTORY) : appendChat h e = h ++ [e] := by
  unfold appendChat
  simp only [List.length_append, List.length_singleton]
  split_ifs with hgt
  · omega
  · rfl

theorem appendChat_of_full {h : List ChatEntry} {e : ChatEntry}
    (hlen : h.length = MAX_CHAT_HISTORY) : appendChat h e = h.tail ++ [e] := by
  unfold appendChat
  simp only [List.length_append, List.length_singleton]
  split_ifs with hgt
  · cases h with
    | nil => simp [MAX_CHAT_HISTORY] at hlen
    | cons a t => rfl
  · omega

theorem appendChat_length_le {h : List ChatEntry} {e : ChatEntry}
    (hlen : h.length ≤ MAX_CHAT_HISTORY) :
    (appendChat h e).length ≤ MAX_CHAT_HISTORY := by
  show (if MAX_CHAT_HISTORY < (h ++ [e]).length
        then (h ++ [e]).tail else (h ++ [e])).length ≤ MAX_CHAT_HISTORY
  split_ifs with hgt
  · simp only [List.length_tail, List.length_append, List.length_singleton]
    omega
  · simp only [List.length_append, List.length_singleton] at hgt ⊢
    omega

theorem handleMessage_chat (isOpen : ℕ → Bool) (st : ServerState)
    (ws : ℕ) (msg : InMsg) (now : ℚ) :
    (handleMessage isOpen st ws msg now).1.chatHistory = st.chatHistory ∨
    ∃ en, (handleMessage isOpen st ws msg now).1.chatHistory =
      appendChat st.chatHistory en := by
  unfold handleMessage
  cases h : alGet st.clients ws with
  | none => left; rfl
  | some c =>
    cases msg with
    | player_update s =>
      dsimp only
      by_cases hs : hasSignificantChange (some c.state) s = true
      · rw [if_pos hs]
        left
        rw [batchBroadcast_chatHistory]
      · rw [if_neg hs]
        left
        rfl
    | chat_message m =>
      right
      exact ⟨_, rfl⟩
    | emote_command e =>
      dsimp only
      split_ifs <;> left <;> rfl
    | ping t => left; rfl
    | other => left; rfl

theorem step_chat_le {st : ServerState}
    (hb : st.chatHistory.length ≤ MAX_CHAT_HISTORY) (e : Event) :
    (step st e).1.chatHistory.length ≤ MAX_CHAT_HISTORY := by
  cases e with
  | connect isOpen ws cid now => exact hb
  | message isOpen ws msg now =>
    show (handleMessage isOpen st ws msg now).1.chatHistory.length ≤ _
    rcases handleMessage_chat isOpen st ws msg now with heq | ⟨en, heq⟩
    · rw [heq]
      exact hb
    · rw [heq]
      exact appendChat_length_le hb
  | flushFire isOpen =>
    show ((if st.updateBatchTimer then flushBatchedUpdates isOpen st
           else (st, [])).1.chatHistory.length ≤ _)
    split_ifs <;> exact hb
  | sweep isOpen =>
    show (heartbeatSweep isOpen st).1.chatHistory.length ≤ _
    unfold heartbeatSweep
    rw [sweepFold_chat]
    exact hb
  | pongRecv ws =>
    show (handlePong st ws).chatHistory.length ≤ _
    unfold handlePong
    split_ifs <;> exact hb
  | close isOpen ws =>
    show ((handleClientDisconnect isOpen st ws).1.chatHistory.length ≤ _)
    rw [handleClientDisconnect_chat]
    exact hb
  | socketError isOpen ws =>
    show ((handleClientDisconnect isOpen st ws).1.chatHistory.length ≤ _)
    rw [handleClientDisconnect_chat]
    exact hb

theorem run_chat_le :
    ∀ (evs : List Event) (st : ServerState),
      st.chatHistory.length ≤ MAX_CHAT_HISTORY →
      ((run st evs).1.chatHistory.length ≤ MAX_CHAT_HISTORY)
  | [], st, hb => hb
  | e :: es, st, hb => by
    unfold run
    exact run_chat_le es (step st e).1 (step_chat_le hb e)

/-- C4: in every state the server can reach by any sequence of events
from process start, the chat history holds at most 25 entries; appending
to a history shorter than 25 pushes to the back; appending the 26th
entry to a full history of 25 evicts exactly the front entry, so the old
second entry becomes first and the survivors keep their relative order
(FIFO), with the new entry at the back. -/
theorem c4_chat_bounded_fifo :
    (∀ evs : List Event,
      ((run initialServer evs).1.chatHistory.length ≤ 25)) ∧
    (∀ (h : List ChatEntry) (e : ChatEntry), h.length < 25 →
      appendChat h e = h ++ [e]) ∧
    (∀ (h : List ChatEntry) (e : ChatEntry), h.length = 25 →
      appendChat h e = h.tail ++ [e]) :=
  ⟨fun evs => run_chat_le evs initialServer (by simp [initialServer]),
   fun _ _ hlen => appendChat_of_lt hlen,
   fun _ _ hlen => appendChat_of_full hlen⟩

/-- A concrete chat entry for witnesses. -/
def sampleEntry : ChatEntry := ⟨"abc123", "hello", 0⟩

/-- A second concrete chat entry for witnesses. -/
def sampleEntry2 : ChatEntry := ⟨"def456", "world", 1⟩

/-- Witness for C4: appending a 26th entry to a full 25-entry history
evicts the front entry, and the bound holds on a concrete trace. -/
theorem c4_witness :
    (run initialServer []).1.chatHistory.length ≤ 25 ∧
    appendChat (List.replicate 25 sampleEntry) sampleEntry2 =
      (List.replicate 25 sampleEntry).tail ++ [sampleEntry2] :=
  ⟨c4_chat_bounded_fifo.1 [],
   c4_chat_bounded_fifo.2.2 (List.replicate 25 sampleEntry) sampleEntry2
     (by simp)⟩

/-! ### C9: the batch-flush scheduling singleton -/

/-- The timer-singleton invariant: the number of scheduled flush
timeouts is 1 exactly when the `updateBatchTimer` handle is set, and 0
otherwise. -/
def TimerInv (st : ServerState) : Prop :=
  st.scheduledFlushes = if st.updateBatchTimer then 1 else 0

theorem batchBroadcast_TimerInv (isOpen : ℕ → Bool) (st : ServerState)
    (m : OutMsg) (ex : Option ℕ) (pr : Bool) (hinv : TimerInv st) :
    TimerInv (batchBroadcast isOpen st m ex pr).1 := by
  unfold batchBroadcast
  split_ifs with hpr htm
  · exact hinv
  · show st.scheduledFlushes = if st.updateBatchTimer then 1 else 0
    exact hinv
  · show st.scheduledFlushes + 1 = if true then 1 else 0
    unfold TimerInv at hinv
    rw [if_neg htm] at hinv
    simp [hinv]

theorem step_TimerInv {st : ServerState} (hinv : TimerInv st) (e : Event) :
    TimerInv (step st e).1 := by
  cases e with
  | connect isOpen ws cid now =>
    show TimerInv (handleConnection isOpen st ws cid now).1
    exact hinv
  | message isOpen ws msg now =>
    show TimerInv (handleMessage isOpen st ws msg now).1
    unfold handleMessage
    cases h : alGet st.clients ws with
    | none => exact hinv
    | some c =>
      cases msg with
      | player_update s =>
        dsimp only
        by_cases hs : hasSignificantChange (some c.state) s = true
        · rw [if_pos hs]
          exact batchBroadcast_TimerInv _ _ _ _ _ hinv
        · rw [if_neg hs]
          exact hinv
      | chat_message m => exact hinv
      | emote_command e =>
        dsimp only
        split_ifs <;> exact hinv
      | ping t => exact hinv
      | other => exact hinv
  | flushFire isOpen =>
    show TimerInv (if st.updateBatchTimer then flushBatchedUpdates isOpen st
                   else (st, [])).1
    split_ifs with ht
    · show st.scheduledFlushes - 1 = if false then 1 else 0
      unfold TimerInv at hinv
      rw [ht, if_pos rfl] at hinv
      simp [hinv]
    · exact hinv
  | sweep isOpen =>
    show TimerInv (heartbeatSweep isOpen st).1
    unfold TimerInv heartbeatSweep
    rw [sweepFold_flushes, sweepFold_timer]
    exact hinv
  | pongRecv ws =>
    show TimerInv (handlePong st ws)
    unfold handlePong
    split_ifs <;> exact hinv
  | close isOpen ws =>
    have h1 := handleClientDisconnect_flushes isOpen st ws
    have h2 := handleClientDisconnect_timer isOpen st ws
    show (handleClientDisconnect isOpen st ws).1.scheduledFlushes =
      if (handleClientDisconnect isOpen st ws).1.updateBatchTimer then 1 else 0
    rw [h1, h2]
    exact hinv
  | socketError isOpen ws =>
    have h1 := handleClientDisconnect_flushes isOpen st ws
    have h2 := handleClientDisconnect_timer isOpen st ws
    show (handleClientDisconnect isOpen st ws).1.scheduledFlushes =
      if (handleClientDisconnect isOpen st ws).1.updateBatchTimer then 1 else 0
    rw [h1, h2]
    exact hinv

theorem run_TimerInv :
    ∀ (evs : List Event) (st : ServerState), TimerInv st →
      TimerInv (run st evs).1
  | [], _, hinv => hinv
  | e :: es, st, hinv => by
    unfold run
    exact run_TimerInv es (step st e).1 (step_TimerInv hinv e)

/-- C9: in every reachable state at most one batch flush is scheduled
(the count of scheduled flush timeouts is at most 1, and it is 1 exactly
when the timer handle is set); a flush clears the singleton handle; and
a non-priority enqueue performed while the timer handle is set schedules
nothing new. -/
theorem c9_singleton_flush :
    (∀ evs : List Event,
      (run initialServer evs).1.scheduledFlushes ≤ 1 ∧
      ((run initialServer evs).1.updateBatchTimer = true ↔
        (run initialServer evs).1.scheduledFlushes = 1)) ∧
    (∀ (isOpen : ℕ → Bool) (st : ServerState),
      (flushBatchedUpdates isOpen st).1.updateBatchTimer = false) ∧
    (∀ (isOpen : ℕ → Bool) (st : ServerState) (m : OutMsg) (ex : Option ℕ),
      st.updateBatchTimer = true →
        (batchBroadcast isOpen st m ex false).1.scheduledFlushes =
          st.scheduledFlushes ∧
        (batchBroadcast isOpen st m ex false).1.updateBatchTimer = true) := by
  refine ⟨fun evs => ?_, fun isOpen st => rfl, fun isOpen st m ex ht => ?_⟩
  · have hinv := run_TimerInv evs initialServer rfl
    unfold TimerInv at hinv
    rw [hinv]
    split_ifs with h <;> simp [h]
  · unfold batchBroadcast
    rw [if_neg (by simp), if_pos ht]
    exact ⟨rfl, ht⟩

/-- Witness for C9: a non-priority enqueue on a server whose timer is
already set leaves the scheduled count unchanged. -/
theorem c9_witness :
    (run initialServer []).1.scheduledFlushes ≤ 1 ∧
    (batchBroadcast (fun _ => true)
        ({ initialServer with updateBatchTimer := true, scheduledFlushes := 1 })
        OutMsg.ping none false).1.scheduledFlushes = 1 :=
  ⟨(c9_singleton_flush.1 []).1,
   (c9_singleton_flush.2.2 (fun _ => true)
      ({ initialServer with updateBatchTimer := true, scheduledFlushes := 1 })
      OutMsg.ping none rfl).1⟩

/-! ### C5: batch flush delivery -/

/-- What one recipient receives at flush (derived characterization of
`flushStep`): nothing when its socket is not open or its queue is empty,
the single queued message verbatim when the queue holds exactly one, and
one `batch_update` envelope holding the whole queue otherwise. -/
def flushEmit (isOpen : ℕ → Bool) (p : ℕ × List OutMsg) : List Send :=
  if isOpen p.1 then
    match p.2 with
    | [] => []
    | [m] => [(p.1, m)]
    | ms => [(p.1, OutMsg.batch_update ms)]
  else []

theorem flushStep_eq_append (isOpen : ℕ → Bool) (acc : List Send)
    (p : ℕ × List OutMsg) :
    flushStep isOpen acc p = acc ++ flushEmit isOpen p := by
  unfold flushStep flushEmit
  split_ifs with h
  · match p with
    | (w, []) => simp
    | (w, [m]) => rfl
    | (w, m :: m2 :: rest) => rfl
  · simp

theorem foldl_flushStep (isOpen : ℕ → Bool) :
    ∀ (l : List (ℕ × List OutMsg)) (acc : List Send),
      l.foldl (flushStep isOpen) acc = acc ++ l.flatMap (flushEmit isOpen)
  | [], acc => by simp
  | p :: ps, acc => by
    rw [List.foldl_cons, foldl_flushStep isOpen ps, flushStep_eq_append]
    simp

/-- A server with one registered client whose pending queue holds
exactly one message and whose flush timer is set. -/
def pendingServer : ServerState :=
  { clients := [(1, sampleClient)], chatHistory := [],
    pendingUpdates := [(1, [OutMsg.ping])], updateBatchTimer := true,
    scheduledFlushes := 1, socks := [(1, true)] }

/-- C5 counterexample: recipient 1's pending queue holds exactly one
message, but its socket is not open at flush time, so the flush sends it
nothing — the claim as stated (every recipient whose queue holds exactly
one message receives it verbatim) fails at this input. -/
theorem c5_counterexample :
    alGet pendingServer.pendingUpdates 1 = some [OutMsg.ping] ∧
    (flushBatchedUpdates (fun _ => false) pendingServer).2 = [] :=
  ⟨rfl, rfl⟩

/-- C5 amended: at batch flush, every recipient whose socket is open and
whose pending queue holds exactly one message receives that message
verbatim; every open recipient whose queue holds two or more receives
exactly one `batch_update` envelope containing all of them in enqueue
order; recipients whose sockets are not open (and empty queues) receive
nothing; and after the flush all pending queues are empty and the timer
handle is cleared. -/
theorem c5_flush_characterization (isOpen : ℕ → Bool) (st : ServerState) :
    (flushBatchedUpdates isOpen st).1.pendingUpdates = [] ∧
    (flushBatchedUpdates isOpen st).1.updateBatchTimer = false ∧
    (flushBatchedUpdates isOpen st).2 =
      st.pendingUpdates.flatMap (flushEmit isOpen) ∧
    (∀ (w : ℕ) (m : OutMsg),
      flushEmit isOpen (w, [m]) = if isOpen w then [(w, m)] else []) ∧
    (∀ (w : ℕ) (m m2 : OutMsg) (rest : List OutMsg),
      flushEmit isOpen (w, m :: m2 :: rest) =
        if isOpen w then [(w, OutMsg.batch_update (m :: m2 :: rest))]
        else []) ∧
    (∀ w : ℕ, flushEmit isOpen (w, []) = []) := by
  refine ⟨rfl, rfl, ?_, ?_, ?_, ?_⟩
  · show st.pendingUpdates.foldl (flushStep isOpen) [] = _
    rw [foldl_flushStep]
    rfl
  · intro w m
    unfold flushEmit
    split_ifs with h <;> simp [h]
  · intro w m m2 rest
    unfold flushEmit
    split_ifs with h <;> simp [h]
  · intro w
    unfold flushEmit
    split_ifs <;> rfl

/-! ### C3: what a new connection is sent, in order -/

/-- C3: on a new connection (socket not yet registered), the sends are,
in this exact order: (1) `assign_id` with the generated id, the default
initial state and server time, to the new socket; (2) `existing_players`
listing `{id, state}` of every other registered connection, to the new
socket, omitted when there are none; (3) `chat_history` with the full
chat buffer, to the new socket, omitted when it is empty; and only then
the `player_joined` broadcast, which goes to the open previously
registered connections — never to the new socket, since no key of the
prior registry equals the new socket. -/
theorem c3_connection_sequence (isOpen : ℕ → Bool) (st : ServerState)
    (ws : ℕ) (cid : String) (now : ℚ)
    (hfresh : alGet st.clients ws = none) :
    (handleConnection isOpen st ws cid now).2 =
      [(ws, OutMsg.assign_id cid (initialState now) now)]
      ++ (if 0 < st.clients.length then
            [(ws, OutMsg.existing_players
                (st.clients.map (fun p => (p.2.id, p.2.state))))]
          else [])
      ++ (if 0 < st.chatHistory.length then
            [(ws, OutMsg.chat_history st.chatHistory)]
          else [])
      ++ ((st.clients.filter (fun p => isOpen p.1)).map
            (fun p => (p.1, OutMsg.player_joined cid (initialState now)))) ∧
    (∀ p ∈ st.clients, p.1 ≠ ws) := by
  have hkeys := (alGet_eq_none_iff st.clients ws).1 hfresh
  refine ⟨?_, hkeys⟩
  have hf1 : ∀ C : Client,
      (st.clients ++ [(ws, C)]).filter (fun p => ¬ p.1 = ws) = st.clients := by
    intro C
    have hself : st.clients.filter (fun p => ¬ p.1 = ws) = st.clients :=
      List.filter_eq_self.mpr (fun p hp => by simp [hkeys p hp])
    rw [List.filter_append, hself]
    simp
  have hf2 : ∀ C : Client,
      (st.clients ++ [(ws, C)]).filter
          (fun p => some ws ≠ some p.1 && isOpen p.1) =
        st.clients.filter (fun p => isOpen p.1) := by
    intro C
    have hcong : st.clients.filter (fun p => some ws ≠ some p.1 && isOpen p.1) =
        st.clients.filter (fun p => isOpen p.1) :=
      List.filter_congr (fun p hp => by simp [Ne.symm (hkeys p hp)])
    rw [List.filter_append, hcong]
    simp
  unfold handleConnection broadcastImmediate
  dsimp only
  rw [alSet_of_get_none _ hfresh, hf1, hf2]
  simp [List.length_map]

/-- Witness for C3: a second client joining the sample server receives
`assign_id`, then `existing_players` (one entry), no `chat_history`
(buffer empty), and the prior client receives the `player_joined`
broadcast. -/
theorem c3_witness :
    (handleConnection (fun _ => true) sampleServer 2 "xyz999" 0).2 =
      [(2, OutMsg.assign_id "xyz999" (initialState 0) 0)]
      ++ (if 0 < sampleServer.clients.length then
            [(2, OutMsg.existing_players
                (sampleServer.clients.map (fun p => (p.2.id, p.2.state))))]
          else [])
      ++ (if 0 < sampleServer.chatHistory.length then
            [(2, OutMsg.chat_history sampleServer.chatHistory)]
          else [])
      ++ ((sampleServer.clients.filter (fun p => (fun _ => true) p.1)).map
            (fun p => (p.1, OutMsg.player_joined "xyz999" (initialState 0)))) :=
  (c3_connection_sequence (fun _ => true) sampleServer 2 "xyz999" 0 rfl).1

/-! ### C8: what the pong handler touches -/

/-- A server whose only socket has its alive flag cleared (a probe is
outstanding) and whose client record has lastHeartbeat 0. -/
def pongServer : ServerState :=
  { clients := [(1, sampleClient)], chatHistory := [], pendingUpdates := [],
    updateBatchTimer := false, scheduledFlushes := 0, socks := [(1, false)] }

/-- C8 counterexample: a pong received at server time 5 on socket 1 sets
the alive flag, but the stored client record is untouched — its
`lastHeartbeat` stays 0 instead of being refreshed to 5, refuting the
claim that a pong also refreshes `lastHeartbeat`. -/
theorem c8_counterexample :
    alGet (handlePong pongServer 1).socks 1 = some true ∧
    alGet (handlePong pongServer 1).clients 1 = some sampleClient ∧
    ¬ alGet (handlePong pongServer 1).clients 1 =
        some ({ sampleClient with lastHeartbeat := 5 }) := by
  refine ⟨rfl, rfl, ?_⟩
  intro h
  rw [show alGet (handlePong pongServer 1).clients 1 = some sampleClient
      from rfl] at h
  have h1 := Option.some.inj h
  have h2 := congrArg Client.lastHeartbeat h1
  norm_num [sampleClient] at h2

/-- C8 amended: receiving a pong on a registered socket sets its alive
flag to true and changes nothing else — in particular the client records
(hence every `lastHeartbeat`), the chat history and the pending queues
are all left exactly as they were. -/
theorem c8_pong_alive_only (st : ServerState) (ws : ℕ) :
    (handlePong st ws).clients = st.clients ∧
    (handlePong st ws).chatHistory = st.chatHistory ∧
    (handlePong st ws).pendingUpdates = st.pendingUpdates ∧
    ((alGet st.socks ws).isSome = true →
      alGet (handlePong st ws).socks ws = some true) := by
  unfold handlePong
  split_ifs with h
  · exact ⟨rfl, rfl, rfl, fun _ => alGet_alSet_self _ _ _⟩
  · exact ⟨rfl, rfl, rfl, fun hs => absurd hs h⟩

/-- Witness for C8 (amended) on the concrete pong server. -/
theorem c8_witness :
    (handlePong pongServer 1).clients = pongServer.clients ∧
    alGet (handlePong pongServer 1).socks 1 = some true :=
  ⟨(c8_pong_alive_only pongServer 1).1,
   (c8_pong_alive_only pongServer 1).2.2.2 rfl⟩

/-! ### C7: eviction after two unacknowledged probes -/

/-- Tests whether a send carries a `player_left` message. -/
def isLeftSend (s : Send) : Bool :=
  match s.2 with
  | OutMsg.player_left _ => true
  | _ => false

/-- A two-client server: socket 1 (client `ca`) and socket 2 (client
`cb`), both alive. -/
def c7Server (ca cb : Client) : ServerState :=
  { clients := [(1, ca), (2, cb)], chatHistory := [], pendingUpdates := [],
    updateBatchTimer := false, scheduledFlushes := 0,
    socks := [(1, true), (2, true)] }

/-- C7: socket 1 never acknowledges a probe while socket 2 does. The
first sweep clears socket 1's alive flag and pings both sockets; the
second sweep sees the flag still false, removes socket 1 from the
registry and terminates it; the termination-induced close event is then
a no-op. Across the whole trace exactly one `player_left` message is
sent — to the surviving client, carrying socket 1's client id — even
though termination also fired the close event. -/
theorem c7_two_probe_eviction (ca cb : Client) :
    (step (c7Server ca cb) (Event.sweep (fun _ => true))).2 =
      [(1, OutMsg.ping), (2, OutMsg.ping)] ∧
    alGet (step (c7Server ca cb) (Event.sweep (fun _ => true))).1.socks 1 =
      some false ∧
    alGet (run (c7Server ca cb)
        [Event.sweep (fun _ => true), Event.pongRecv 2,
         Event.sweep (fun _ => true), Event.close (fun _ => true) 1]).1.clients
        1 = none ∧
    alGet (run (c7Server ca cb)
        [Event.sweep (fun _ => true), Event.pongRecv 2,
         Event.sweep (fun _ => true), Event.close (fun _ => true) 1]).1.clients
        2 = some cb ∧
    (run (c7Server ca cb)
        [Event.sweep (fun _ => true), Event.pongRecv 2,
         Event.sweep (fun _ => true), Event.close (fun _ => true) 1]).2.filter
        isLeftSend = [(2, OutMsg.player_left ca.id)] :=
  ⟨rfl, rfl, rfl, rfl, rfl⟩
